import Mathlib

/-!
Shallow embedding of `src/BaseBridge.ts` (Base Bridge Utilities).

Modelling conventions:
- JavaScript `BigInt` amounts and chain ids become `Nat` (arbitrary precision,
  matching BigInt semantics for the non-negative values used here).
- The asynchronous chain data provider is modelled by passing the outcome of
  the single provider query the code makes as an explicit argument
  (`FeeData` for `getFeeData`, `ProviderReceiptResult` for
  `getTransactionReceipt`), together with a count of provider queries
  actually performed, so that "checked before any network call" is provable.
- Thrown JavaScript errors become `Except` error values; the error
  constructors carry the data interpolated into the thrown messages.
- JavaScript float literals (slippage 0.1 / 0.3) are modelled as rationals.
-/

namespace SUPPORTED_CHAINS

def ETHEREUM : Nat := 1

def BASE : Nat := 8453

def OPTIMISM : Nat := 10

def ARBITRUM : Nat := 42161

def POLYGON : Nat := 137

end SUPPORTED_CHAINS

/-- `ethers.ZeroAddress`. -/
def ZeroAddress : String := "0x0000000000000000000000000000000000000000"

/-- The `BRIDGE_CONTRACTS` nested lookup table:
`BRIDGE_CONTRACTS[sourceChain]?.[targetChain]`, `none` when either level of
the lookup is undefined. -/
def BRIDGE_CONTRACTS (sourceChain targetChain : Nat) : Option String :=
  if sourceChain = SUPPORTED_CHAINS.ETHEREUM then
    if targetChain = SUPPORTED_CHAINS.BASE then
      some "0x3154Cf16ccdb4C6d922629664174b904d80F2C35"
    else if targetChain = SUPPORTED_CHAINS.OPTIMISM then
      some "0x99C9fc46f92E8a1c0deC1b1747d010903E884bE1"
    else none
  else if sourceChain = SUPPORTED_CHAINS.BASE then
    if targetChain = SUPPORTED_CHAINS.ETHEREUM then
      some "0x4200000000000000000000000000000000000010"
    else if targetChain = SUPPORTED_CHAINS.OPTIMISM then
      some "0x4200000000000000000000000000000000000007"
    else none
  else none

/-- The `TOKEN_ADDRESSES` nested lookup table:
`TOKEN_ADDRESSES[symbol]?.[chainId]`. -/
def TOKEN_ADDRESSES (symbol : String) (chainId : Nat) : Option String :=
  if symbol = "USDC" then
    if chainId = SUPPORTED_CHAINS.ETHEREUM then
      some "0xA0b86a33E6441E6C673C5C9C7C5C5C5C5C5C5C5C"
    else if chainId = SUPPORTED_CHAINS.BASE then
      some "0x833589fCD6eDb6E08f4c7C32D4f71b54bdA02913"
    else if chainId = SUPPORTED_CHAINS.OPTIMISM then
      some "0x7F5c764cBc14f9669B88837ca1490cCa17c31607"
    else none
  else if symbol = "WETH" then
    if chainId = SUPPORTED_CHAINS.ETHEREUM then
      some "0xC02aaA39b223FE8D0A0e5C4F27eAD9083C756Cc2"
    else if chainId = SUPPORTED_CHAINS.BASE then
      some "0x4200000000000000000000000000000000000006"
    else if chainId = SUPPORTED_CHAINS.OPTIMISM then
      some "0x4200000000000000000000000000000000000006"
    else none
  else none

/-- The `BridgeConfig` interface. -/
structure BridgeConfig where
  sourceChain : Nat
  targetChain : Nat
  bridgeContract : String
  tokenAddress : String
  amount : String
  recipient : String
  deriving Repr, DecidableEq

/-- The three values of the `status` field of `BridgeStatus`. -/
inductive TxStatus where
  | pending
  | confirmed
  | failed
  deriving Repr, DecidableEq

/-- The `BridgeStatus` interface; `timestamp` is the `Date.now()` value at
the time of the call, passed explicitly. -/
structure BridgeStatus where
  transactionHash : String
  status : TxStatus
  sourceChain : Nat
  targetChain : Nat
  amount : String
  timestamp : Nat
  deriving Repr, DecidableEq

/-- The `GasEstimate` interface. -/
structure GasEstimate where
  gasLimit : String
  gasPrice : String
  totalCost : String
  estimatedTime : Nat
  deriving Repr, DecidableEq

/-- The relevant part of the object returned by `provider.getFeeData()`:
`gasPrice` may be `null` (`none`). -/
structure FeeData where
  gasPrice : Option Nat
  deriving Repr, DecidableEq

/-- Errors thrown by `BaseBridge` methods, carrying the data interpolated
into the corresponding `Error` messages. -/
inductive BridgeError where
  | unsupportedHop (sourceChain targetChain : Nat)
  | signingUnavailable
  | routeNotFound (fromChain toChain : Nat)
  deriving Repr, DecidableEq

/-- `ethers.formatEther(wei)`: the wei value rendered as a decimal string in
ether (18 decimals), with trailing fractional zeros trimmed but at least one
fractional digit kept. -/
def formatEther (wei : Nat) : String :=
  let whole := wei / 1000000000000000000
  let frac := wei % 1000000000000000000
  let digits := toString frac
  let padded := String.mk (List.replicate (18 - digits.length) '0') ++ digits
  let trimmed := (padded.data.reverse.dropWhile (fun c => c = '0')).reverse
  toString whole ++ "." ++ (if trimmed.isEmpty then "0" else String.mk trimmed)

/-- `BaseBridge.estimateGas`. The second component counts the provider
queries (`getFeeData`) made during the call. Mirrors the source: the
bridge-contract lookup is checked first and the method throws before any
provider call when it is undefined; otherwise the fee data is queried once.
The JavaScript `gasPrice.gasPrice || 20000000000n` treats a zero gas price
as falsy (so the default is used for the cost), while
`gasPrice.gasPrice?.toString() || '20000000000'` keeps `"0"` (a non-empty,
hence truthy, string); both are reproduced. -/
def estimateGas (config : BridgeConfig) (feeData : FeeData) :
    Except BridgeError GasEstimate × Nat :=
  match BRIDGE_CONTRACTS config.sourceChain config.targetChain with
  | none => (.error (.unsupportedHop config.sourceChain config.targetChain), 0)
  | some _ =>
    let gasLimit : Nat := 200000
    let effectivePrice :=
      match feeData.gasPrice with
      | some p => if p = 0 then 20000000000 else p
      | none => 20000000000
    let totalCost := formatEther (gasLimit * effectivePrice)
    let gasPriceField :=
      match feeData.gasPrice with
      | some p => toString p
      | none => "20000000000"
    let estimatedTime :=
      if config.targetChain = SUPPORTED_CHAINS.BASE then 10
      else if config.targetChain = SUPPORTED_CHAINS.ETHEREUM then 20
      else 15
    (.ok ⟨"200000", gasPriceField, totalCost, estimatedTime⟩, 1)

/-- A call the bridge contract object dispatches through the signer. -/
inductive BridgeCall where
  | bridgeETH (recipient : String) (targetChain : Nat) (value : String)
  | bridgeToken (token : String) (amount : String) (recipient : String)
      (targetChain : Nat)
  deriving Repr, DecidableEq

/-- `BaseBridge.initiateBridge`. `signer` models the optional
`ethers.Signer`; `txHash` is the hash of the transaction the signer would
broadcast. The second component lists the contract calls actually
dispatched (contract address paired with the call), so that "no transaction
is constructed or broadcast" is provable. -/
def initiateBridge (signer : Option Unit) (config : BridgeConfig)
    (txHash : String) : Except BridgeError String × List (String × BridgeCall) :=
  match signer with
  | none => (.error .signingUnavailable, [])
  | some _ =>
    match BRIDGE_CONTRACTS config.sourceChain config.targetChain with
    | none =>
      (.error (.unsupportedHop config.sourceChain config.targetChain), [])
    | some bridgeAddress =>
      if config.tokenAddress = ZeroAddress then
        (.ok txHash,
          [(bridgeAddress,
            .bridgeETH config.recipient config.targetChain config.amount)])
      else
        (.ok txHash,
          [(bridgeAddress,
            .bridgeToken config.tokenAddress config.amount config.recipient
              config.targetChain)])

/-- A receipt as returned by `provider.getTransactionReceipt`; the code only
reads its `status` field. -/
structure TransactionReceipt where
  status : Nat
  deriving Repr, DecidableEq

/-- Outcome of the single `provider.getTransactionReceipt` call made by
`getBridgeStatus`: `null`, a receipt, or a thrown (rejected) query. -/
inductive ProviderReceiptResult where
  | noReceipt
  | receipt (r : TransactionReceipt)
  | thrown
  deriving Repr, DecidableEq

/-- `BaseBridge.getBridgeStatus`. The whole body is wrapped in a
`try`/`catch` returning a failed status, so every provider outcome maps to
a fully populated `BridgeStatus`; `now` is `Date.now()`. -/
def getBridgeStatus (transactionHash : String) (sourceChain : Nat)
    (providerResult : ProviderReceiptResult) (now : Nat) : BridgeStatus :=
  match providerResult with
  | .noReceipt =>
    ⟨transactionHash, .pending, sourceChain, 0, "0", now⟩
  | .receipt r =>
    ⟨transactionHash, if r.status = 1 then .confirmed else .failed,
      sourceChain, 0, "0", now⟩
  | .thrown =>
    ⟨transactionHash, .failed, sourceChain, 0, "0", now⟩

/-- The record returned by `BaseBridge.getOptimalRoute`. -/
structure Route where
  route : List Nat
  estimatedTime : Nat
  estimatedCost : String
  slippage : ℚ
  deriving Repr, DecidableEq

/-- `BaseBridge.getOptimalRoute`. The second component counts provider
queries (via the inner `estimateGas` call). Mirrors the source: direct
bridge-contract entry first (with token-address resolution falling back to
the zero address); otherwise, whenever neither endpoint is Ethereum, the
static hub route through Ethereum; otherwise a `routeNotFound` error. -/
def getOptimalRoute (fromChain toChain : Nat) (tokenSymbol : String)
    (amount : String) (feeData : FeeData) : Except BridgeError Route × Nat :=
  match BRIDGE_CONTRACTS fromChain toChain with
  | some bridgeAddress =>
    match estimateGas
        ⟨fromChain, toChain, bridgeAddress,
          (TOKEN_ADDRESSES tokenSymbol fromChain).getD ZeroAddress, amount,
          ZeroAddress⟩ feeData with
    | (.ok gasEstimate, queries) =>
      (.ok ⟨[fromChain, toChain], gasEstimate.estimatedTime,
        gasEstimate.totalCost, 1/10⟩, queries)
    | (.error e, queries) => (.error e, queries)
  | none =>
    if fromChain ≠ SUPPORTED_CHAINS.ETHEREUM ∧
        toChain ≠ SUPPORTED_CHAINS.ETHEREUM then
      (.ok ⟨[fromChain, SUPPORTED_CHAINS.ETHEREUM, toChain], 45, "0.01",
        3/10⟩, 0)
    else
      (.error (.routeNotFound fromChain toChain), 0)

/-- The record returned by `BaseBridge.calculateBridgeFees`; the source
stringifies the three BigInt values. -/
structure FeeBreakdown where
  bridgeFee : String
  gasFee : String
  totalFee : String
  deriving Repr, DecidableEq

/-- `BaseBridge.calculateBridgeFees`: pure, synchronous, BigInt arithmetic;
`sourceChain` is accepted but unused, as in the source. -/
def calculateBridgeFees (amount sourceChain targetChain : Nat) : FeeBreakdown :=
  let bridgeFee := amount * 10 / 10000
  let gasFee : Nat :=
    if targetChain = SUPPORTED_CHAINS.BASE then 1000000000000000
    else 5000000000000000
  let totalFee := bridgeFee + gasFee
  ⟨toString bridgeFee, toString gasFee, toString totalFee⟩

/-- C2: for every non-negative integer amount (including 0 and amounts far
beyond 2^64, since `Nat` is arbitrary precision), `calculateBridgeFees`
returns bridgeFee = floor(amount * 10 / 10000), gasFee = 10^15 when the
target chain is Base (8453) and 5 * 10^15 otherwise, and
totalFee = bridgeFee + gasFee; the embedding is a pure function with no
provider parameter, matching the I/O-free source. -/
theorem calculateBridgeFees_spec (amount sourceChain targetChain : Nat) :
    calculateBridgeFees amount sourceChain targetChain =
      ⟨toString (amount * 10 / 10000),
        toString (if targetChain = 8453 then 1000000000000000
          else 5000000000000000),
        toString (amount * 10 / 10000 +
          (if targetChain = 8453 then 1000000000000000
            else 5000000000000000))⟩ := rfl

/-- C2 witness: the theorem applied at an amount above 2^64 (10^30 wei) with
target Base, evaluated concretely. -/
theorem calculateBridgeFees_spec_witness :
    calculateBridgeFees 1000000000000000000000000000000 1 8453 =
      ⟨"1000000000000000000000000000",
        "1000000000000000",
        "1000000000001000000000000000"⟩ :=
  calculateBridgeFees_spec 1000000000000000000000000000000 1 8453

/-- C3: `getBridgeStatus` maps the provider outcome deterministically: the
returned transactionHash and sourceChain always equal the arguments, the
status does not depend on the call time (so repeated calls under the same
receipt outcome agree), a missing receipt yields pending, and a receipt
yields confirmed exactly on the success indicator (status 1) and otherwise
failed — in particular a receipt always yields a terminal status. -/
theorem getBridgeStatus_deterministic (h : String) (c : Nat)
    (pr : ProviderReceiptResult) (now now2 : Nat) :
    (getBridgeStatus h c pr now).transactionHash = h ∧
    (getBridgeStatus h c pr now).sourceChain = c ∧
    (getBridgeStatus h c pr now).status = (getBridgeStatus h c pr now2).status ∧
    (getBridgeStatus h c .noReceipt now).status = .pending ∧
    (∀ r : TransactionReceipt,
      (getBridgeStatus h c (.receipt r) now).status =
        (if r.status = 1 then .confirmed else .failed)) ∧
    (∀ r : TransactionReceipt,
      (getBridgeStatus h c (.receipt r) now).status = .confirmed ∨
      (getBridgeStatus h c (.receipt r) now).status = .failed) := by
  refine ⟨?_, ?_, ?_, rfl, fun r => rfl, fun r => ?_⟩
  · cases pr <;> rfl
  · cases pr <;> rfl
  · cases pr <;> rfl
  · by_cases hs : r.status = 1
    · exact Or.inl (by simp [getBridgeStatus, hs])
    · exact Or.inr (by simp [getBridgeStatus, hs])

/-- C4 counterexample: the claim says the result lets the caller distinguish
a true on-chain failure (explicit failure receipt) from a reported failure
where the tracker could not find out (provider query threw). At the
concrete input below the two results are the very same record, so no caller
can distinguish them; moreover the code reports failed from the single
receipt query, with no retry loop. -/
theorem getBridgeStatus_error_indistinguishable :
    getBridgeStatus "0xabcd" 8453 .thrown 0 =
      getBridgeStatus "0xabcd" 8453 (.receipt ⟨0⟩) 0 ∧
    getBridgeStatus "0xabcd" 8453 .thrown 0 =
      ⟨"0xabcd", .failed, 8453, 0, "0", 0⟩ :=
  ⟨rfl, rfl⟩

/-- C4 amended: on a query-level provider error, `getBridgeStatus` reports
failed immediately from its single receipt query (the embedding consumes
exactly one provider outcome, as the source makes exactly one
`getTransactionReceipt` call with no retry), and the returned record is
identical to the one returned for an explicit on-chain failure receipt, so
the two cases are indistinguishable to the caller. -/
theorem getBridgeStatus_error_single_attempt (h : String) (c : Nat)
    (now : Nat) :
    getBridgeStatus h c .thrown now = ⟨h, .failed, c, 0, "0", now⟩ ∧
    getBridgeStatus h c .thrown now =
      getBridgeStatus h c (.receipt ⟨0⟩) now :=
  ⟨rfl, rfl⟩

/-- C5: for every supported direct pair (a pair with a bridge-contract
entry), `estimateGas` succeeds with gasLimit "200000" and estimatedTime 10
when the target is Base (8453), 20 when the target is Ethereum (1), and 15
otherwise. -/
theorem estimateGas_direct_pair_constants (config : BridgeConfig)
    (feeData : FeeData) (addr : String)
    (hEdge : BRIDGE_CONTRACTS config.sourceChain config.targetChain = some addr) :
    ∃ est : GasEstimate,
      (estimateGas config feeData).fst = .ok est ∧
      est.gasLimit = "200000" ∧
      est.estimatedTime =
        (if config.targetChain = 8453 then 10
          else if config.targetChain = 1 then 20 else 15) := by
  unfold estimateGas
  rw [hEdge]
  exact ⟨_, rfl, rfl, rfl⟩

/-- C5 witness: the theorem applied to the Ethereum-to-Base pair, yielding
gasLimit "200000" and estimatedTime 10. -/
theorem estimateGas_direct_pair_constants_witness :
    BRIDGE_CONTRACTS 1 8453 =
      some "0x3154Cf16ccdb4C6d922629664174b904d80F2C35" ∧
    ∃ est : GasEstimate,
      (estimateGas
        ⟨1, 8453, "0x3154Cf16ccdb4C6d922629664174b904d80F2C35", ZeroAddress,
          "1000000000000000000",
          "0x1234567890123456789012345678901234567890"⟩
        ⟨some 20000000000⟩).fst = .ok est ∧
      est.gasLimit = "200000" ∧
      est.estimatedTime = (if (8453 : Nat) = 8453 then 10
        else if (8453 : Nat) = 1 then 20 else 15) :=
  ⟨rfl,
    estimateGas_direct_pair_constants
      ⟨1, 8453, "0x3154Cf16ccdb4C6d922629664174b904d80F2C35", ZeroAddress,
        "1000000000000000000",
        "0x1234567890123456789012345678901234567890"⟩
      ⟨some 20000000000⟩
      "0x3154Cf16ccdb4C6d922629664174b904d80F2C35" rfl⟩

/-- C6: for every config whose pair has no bridge-contract entry,
`estimateGas` fails with the unsupported-hop error and performs zero
provider queries: the check precedes any network call. -/
theorem estimateGas_unsupported_hop_no_query (config : BridgeConfig)
    (feeData : FeeData)
    (hEdge : BRIDGE_CONTRACTS config.sourceChain config.targetChain = none) :
    estimateGas config feeData =
      (.error (.unsupportedHop config.sourceChain config.targetChain), 0) := by
  unfold estimateGas
  rw [hEdge]

/-- C6 witness: the theorem applied to the unregistered source chain 999
targeting Base (8453). -/
theorem estimateGas_unsupported_hop_no_query_witness :
    BRIDGE_CONTRACTS 999 8453 = none ∧
    estimateGas
        ⟨999, 8453, "", ZeroAddress, "1000000000000000000",
          "0x1234567890123456789012345678901234567890"⟩
        ⟨some 20000000000⟩ =
      (.error (.unsupportedHop 999 8453), 0) :=
  ⟨rfl,
    estimateGas_unsupported_hop_no_query
      ⟨999, 8453, "", ZeroAddress, "1000000000000000000",
        "0x1234567890123456789012345678901234567890"⟩
      ⟨some 20000000000⟩ rfl⟩

/-- Helper: on a pair with a bridge-contract entry, `estimateGas` returns
some successful estimate together with exactly one provider query. -/
theorem estimateGas_direct_result (config : BridgeConfig)
    (feeData : FeeData) (addr : String)
    (hEdge : BRIDGE_CONTRACTS config.sourceChain config.targetChain = some addr) :
    ∃ est : GasEstimate, estimateGas config feeData = (.ok est, 1) := by
  unfold estimateGas
  rw [hEdge]
  exact ⟨_, rfl⟩

/-- C7: for every pair with a direct bridge-contract entry,
`getOptimalRoute` returns the 2-element route [fromChain, toChain] with
slippage 0.1, and its estimatedTime and estimatedCost equal the time and
total cost of the single-hop `estimateGas` result for that pair (with the
config `getOptimalRoute` builds for it). -/
theorem getOptimalRoute_direct (fromChain toChain : Nat)
    (tokenSymbol amount : String) (feeData : FeeData) (addr : String)
    (hEdge : BRIDGE_CONTRACTS fromChain toChain = some addr) :
    ∃ est : GasEstimate,
      (estimateGas
        ⟨fromChain, toChain, addr,
          (TOKEN_ADDRESSES tokenSymbol fromChain).getD ZeroAddress, amount,
          ZeroAddress⟩ feeData).fst = .ok est ∧
      (getOptimalRoute fromChain toChain tokenSymbol amount feeData).fst =
        .ok ⟨[fromChain, toChain], est.estimatedTime, est.totalCost, 1/10⟩ := by
  obtain ⟨est, hq⟩ :=
    estimateGas_direct_result
      ⟨fromChain, toChain, addr,
        (TOKEN_ADDRESSES tokenSymbol fromChain).getD ZeroAddress, amount,
        ZeroAddress⟩ feeData addr hEdge
  refine ⟨est, by rw [hq], ?_⟩
  unfold getOptimalRoute
  rw [hEdge]
  dsimp only
  rw [hq]

/-- C7 witness: the theorem applied to the Ethereum-to-Base pair with the
USDC symbol, checked against the concretely evaluated gas estimate. -/
theorem getOptimalRoute_direct_witness :
    BRIDGE_CONTRACTS 1 8453 =
      some "0x3154Cf16ccdb4C6d922629664174b904d80F2C35" ∧
    ∃ est : GasEstimate,
      (estimateGas
        ⟨1, 8453, "0x3154Cf16ccdb4C6d922629664174b904d80F2C35",
          (TOKEN_ADDRESSES "USDC" 1).getD ZeroAddress, "1000000",
          ZeroAddress⟩ ⟨some 20000000000⟩).fst = .ok est ∧
      (getOptimalRoute 1 8453 "USDC" "1000000" ⟨some 20000000000⟩).fst =
        .ok ⟨[1, 8453], est.estimatedTime, est.totalCost, 1/10⟩ :=
  ⟨rfl,
    getOptimalRoute_direct 1 8453 "USDC" "1000000" ⟨some 20000000000⟩
      "0x3154Cf16ccdb4C6d922629664174b904d80F2C35" rfl⟩

/-- C8: without a signer, `initiateBridge` fails with the
signing-unavailable error before anything else: for every config and every
would-be transaction, the result is the error and the list of dispatched
contract calls is empty. -/
theorem initiateBridge_requires_signer (config : BridgeConfig)
    (txHash : String) :
    initiateBridge none config txHash = (.error .signingUnavailable, []) :=
  rfl

/-- C9: for every pair with no direct bridge-contract entry where neither
endpoint is Ethereum (1), `getOptimalRoute` returns the hub route
[fromChain, 1, toChain] with estimatedTime 45, estimatedCost "0.01" and
slippage 0.3, making no provider query — regardless of whether either chain
is registered or the hub edges exist (the quantification is over all such
chain ids). -/
theorem getOptimalRoute_hub_fallback (fromChain toChain : Nat)
    (tokenSymbol amount : String) (feeData : FeeData)
    (hEdge : BRIDGE_CONTRACTS fromChain toChain = none)
    (hf : fromChain ≠ 1) (ht : toChain ≠ 1) :
    getOptimalRoute fromChain toChain tokenSymbol amount feeData =
      (.ok ⟨[fromChain, 1, toChain], 45, "0.01", 3/10⟩, 0) := by
  unfold getOptimalRoute
  rw [hEdge, if_pos ⟨hf, ht⟩]
  rfl

/-- C9 witness: the theorem applied to Optimism (10) to Arbitrum (42161),
a pair with no direct entry and no hub edges in the table. -/
theorem getOptimalRoute_hub_fallback_witness :
    BRIDGE_CONTRACTS 10 42161 = none ∧ (10 : Nat) ≠ 1 ∧ (42161 : Nat) ≠ 1 ∧
    getOptimalRoute 10 42161 "WETH" "1000000000000000000"
        ⟨some 20000000000⟩ =
      (.ok ⟨[10, 1, 42161], 45, "0.01", 3/10⟩, 0) :=
  ⟨rfl, by decide, by decide,
    getOptimalRoute_hub_fallback 10 42161 "WETH" "1000000000000000000"
      ⟨some 20000000000⟩ rfl (by decide) (by decide)⟩

/-- C10: `getBridgeStatus` is total over every provider outcome: the status
is one of pending, confirmed, failed; every field of the record is
populated, with transactionHash and sourceChain from the arguments and
targetChain 0 and amount "0" in every case; and a thrown provider query
yields the failed record rather than a propagated exception. -/
theorem getBridgeStatus_total (h : String) (c : Nat)
    (pr : ProviderReceiptResult) (now : Nat) :
    ((getBridgeStatus h c pr now).status = .pending ∨
      (getBridgeStatus h c pr now).status = .confirmed ∨
      (getBridgeStatus h c pr now).status = .failed) ∧
    getBridgeStatus h c pr now =
      ⟨h, (getBridgeStatus h c pr now).status, c, 0, "0", now⟩ ∧
    getBridgeStatus h c .thrown now = ⟨h, .failed, c, 0, "0", now⟩ := by
  refine ⟨?_, ?_, rfl⟩
  · cases hs : (getBridgeStatus h c pr now).status
    · exact Or.inl rfl
    · exact Or.inr (Or.inl rfl)
    · exact Or.inr (Or.inr rfl)
  · cases pr <;> rfl

/-- C1: the claim says that whenever no path exists in the bridge-edge
graph — no direct entry and no two-hop path through the Ethereum hub —
`getOptimalRoute` fails with the route-not-found error. The code instead
returns the hub route whenever neither endpoint is Ethereum, even when the
hub edges do not exist: at fromChain 999, toChain 888 there is no direct
entry, no edge 999 to 1 and no edge 1 to 888, yet the call succeeds with
route [999, 1, 888]. This contradicts the repository's own test, which
expects exactly this call to be rejected with a no-route-found error. -/
theorem getOptimalRoute_no_path_returns_route :
    BRIDGE_CONTRACTS 999 888 = none ∧
    BRIDGE_CONTRACTS 999 1 = none ∧
    BRIDGE_CONTRACTS 1 888 = none ∧
    getOptimalRoute 999 888 "USDC" "1000000" ⟨some 20000000000⟩ =
      (.ok ⟨[999, 1, 888], 45, "0.01", 3/10⟩, 0) :=
  ⟨rfl, rfl, rfl, rfl⟩
